import Mathlib

/-!
Verification development for the dorado alignment pipeline.

The repository sources available are the aligner test suite
(`tests/aligner_test.cpp`), the `utils::Aligner` declaration
(`dorado/utils/bam_utils.h`), and the CLI aligner entry point
(`dorado/cli/aligner.cpp`).  The implementations of
`dorado::Aligner` (AlignerNode), `reverse_complement` and
`convert_nt16_to_str` (sequence utilities) are not among the sources,
so those parts are modelled from the specification; the CLI read loop
is embedded directly from its source.
-/

/- ## Sequence utilities -/

/-- Modelled from the spec: the per-base complement used by the missing
`dorado::utils::reverse_complement` (sequence_utils is not in the sources).
"Reverse-complement: maps each base to its complement and reverses order."
Bases outside A/C/G/T (e.g. N) are left unchanged. -/
def complement (c : Char) : Char :=
  if c = 'A' then 'T'
  else if c = 'T' then 'A'
  else if c = 'C' then 'G'
  else if c = 'G' then 'C'
  else c

/-- Modelled from the spec: the missing `dorado::utils::reverse_complement`.
Maps each base to its complement and reverses the order. -/
def reverse_complement (s : List Char) : List Char :=
  (s.map complement).reverse

theorem complement_involutive (c : Char) : complement (complement c) = c := by
  unfold complement
  split_ifs with h1 h2 h3 h4 <;> simp_all

/- ## Packed nucleotide (nt16) codec -/

/-- The 16-character nt16 alphabet, in code order (htslib `seq_nt16_str`):
code `i` decodes to `nt16_chars[i]`. -/
def nt16_chars : List Char :=
  ['=', 'A', 'C', 'M', 'G', 'R', 'S', 'V', 'T', 'W', 'Y', 'K', 'D', 'H', 'B', 'N']

/-- Modelled from the spec: encoding one textual base to its packed
nt16 code (the encoder half of the "documented bijection between a
textual alphabet (A,C,G,T,N,...) and a compact per-base code";
its implementation is not in the sources). -/
def encode_nt16 (c : Char) : Nat :=
  nt16_chars.indexOf c

/-- Modelled from the spec: decoding one packed nt16 code back to its
textual base, as done by the missing `dorado::utils::convert_nt16_to_str`
for each base of a packed sequence. -/
def decode_nt16 (n : Nat) : Char :=
  nt16_chars.getD n 'N'

/-- Encode a whole textual sequence into packed nt16 codes. -/
def encode_seq (s : List Char) : List Nat :=
  s.map encode_nt16

/-- Modelled from the spec: the missing `dorado::utils::convert_nt16_to_str`,
decoding a packed nt16 code sequence back to text. -/
def convert_nt16_to_str (codes : List Nat) : List Char :=
  codes.map decode_nt16

theorem decode_encode_nt16 (c : Char) (h : c ∈ nt16_chars) :
    decode_nt16 (encode_nt16 c) = c := by
  simp only [nt16_chars, List.mem_cons, List.not_mem_nil, or_false] at h
  rcases h with h | h | h | h | h | h | h | h | h | h | h | h | h | h | h | h <;>
    subst h <;> decide

/- ## CLI aligner read loop (dorado/cli/aligner.cpp) -/

/-- Embedding of the read loop of `dorado::aligner`:
```
int num_reads = 0;
while (reader.read()) {
    auto records = aligner.align(reader.m_record);
    for (auto record : records) { writer.write(record); }
    if (num_reads++ >= max_reads) break;
}
```
`alignerReadLoop maxReads numReads reads` returns the list of input
reads that the loop processes (aligns and writes), starting from
counter value `numReads`.  The counter is compared with `>=` before
being post-incremented, exactly as in the source. -/
def alignerReadLoop {α : Type} (maxReads : Nat) : Nat → List α → List α
  | _, [] => []
  | numReads, r :: rs =>
      r :: (if numReads ≥ maxReads then []
            else alignerReadLoop maxReads (numReads + 1) rs)

/-- The reads processed by the CLI loop, counter starting at 0 as in the
source. -/
def alignerProcessedReads {α : Type} (maxReads : Nat) (reads : List α) : List α :=
  alignerReadLoop maxReads 0 reads

/-- The records written by the CLI loop: every record produced by
`align` for each processed read, in order. -/
def alignerWrittenRecords {α β : Type} (align : α → List β)
    (maxReads : Nat) (reads : List α) : List β :=
  (alignerProcessedReads maxReads reads).flatMap align

lemma alignerReadLoop_eq_take {α : Type} (maxReads : Nat) :
    ∀ (numReads : Nat) (reads : List α), numReads ≤ maxReads →
      alignerReadLoop maxReads numReads reads =
        reads.take (maxReads + 1 - numReads) := by
  intro numReads reads
  induction reads generalizing numReads with
  | nil => intro _; simp [alignerReadLoop]
  | cons r rs ih =>
      intro h
      by_cases hge : numReads ≥ maxReads
      · have heq : numReads = maxReads := Nat.le_antisymm h hge
        subst heq
        simp [alignerReadLoop, Nat.add_sub_cancel_left]
      · have hlt : numReads < maxReads := Nat.lt_of_le_of_ne h (fun he => hge (le_of_eq he.symm))
        have hsub : maxReads + 1 - numReads = (maxReads + 1 - (numReads + 1)) + 1 := by
          omega
        simp only [alignerReadLoop, if_neg hge, ih (numReads + 1) hlt, hsub, List.take_succ_cons]

lemma alignerProcessedReads_eq_take {α : Type} (maxReads : Nat) (reads : List α) :
    alignerProcessedReads maxReads reads = reads.take (maxReads + 1) := by
  unfold alignerProcessedReads
  rw [alignerReadLoop_eq_take maxReads 0 reads (Nat.zero_le _), Nat.sub_zero]

/- ## AlignmentStage data model

The AlignerNode implementation is not among the sources (only its test
suite and the `utils::Aligner` declaration are), so the per-record
operation of §4.4 of the specification is modelled from the spec. -/

/-- Typed annotation-tag value of a CanonicalRecord.  The real float
tags (e.g. the `de` divergence estimate) are modelled with integer
payloads, since only tag presence and verbatim copying matter here. -/
inductive TagValue where
  | int (i : Int)
  | str (s : String)
  | bytes (l : List Nat)
  | cls (c : String)
deriving DecidableEq, Repr

/-- Mapping classification of an alignment hit
(primary / secondary / supplementary). -/
inductive HitClass where
  | primary
  | secondary
  | supplementary
deriving DecidableEq, Repr

/-- Modelled from the spec: an AlignmentHit, "a candidate mapping result
for one query: target contig, position, strand, score, identity/edit
metrics, and a classification (primary, secondary, supplementary)". -/
structure AlignmentHit where
  targetId : Nat
  pos : Nat
  revStrand : Bool
  hitClass : HitClass
  editDistance : Int
  mismatchCount : Int
  score : Int
  ambiguousBases : Int
  divergence : Int
  chainId : Int
  chainScore : Int
  readLength : Int
deriving DecidableEq, Repr

/-- Modelled from the spec: the CanonicalRecord moved through the
pipeline — sequence, quality array, named annotation tags, an
orientation flag and a mapping-status flag. -/
structure CanonicalRecord where
  seq : List Char
  qual : List Nat
  tags : List (String × TagValue)
  revFlag : Bool
  mapped : Bool
deriving DecidableEq, Repr

/-- The string representation of a mapping classification stored in the
`tp` tag. -/
def classCode : HitClass → String
  | .primary => "P"
  | .secondary => "S"
  | .supplementary => "SP"

/-- Modelled from the spec: the fixed alignment tag set attached to
every output record — "edit distance, mismatch count, alignment score,
identity, de-novo/divergence estimate, mapping-classification flag
(primary/supplementary/secondary), chain/cluster identifier, alignment
span, read length.  Tag set is fixed and always attached regardless of
hit rank."  `designated` is the classification after the top-ranked hit
has been designated primary. -/
def alignmentTags (designated : HitClass) (h : AlignmentHit) :
    List (String × TagValue) :=
  [("NM", .int h.editDistance),
   ("ms", .int h.mismatchCount),
   ("AS", .int h.score),
   ("nn", .int h.ambiguousBases),
   ("de", .int h.divergence),
   ("tp", .cls (classCode designated)),
   ("cm", .int h.chainId),
   ("s1", .int h.chainScore),
   ("rl", .int h.readLength)]

/-- The nine fixed alignment tag keys. -/
def alignmentTagKeys : List String :=
  ["NM", "ms", "AS", "nn", "de", "tp", "cm", "s1", "rl"]

/-- Modelled from the spec: building one output CanonicalRecord from one
AlignmentHit (§4.4 step 4).  A reverse-strand hit reverse-complements
the sequence, reverses the quality array and sets the orientation flag;
only the primary output retains the payload; the fixed alignment tags
are attached and every pre-existing input tag is copied forward. -/
def buildOutput (input : CanonicalRecord) (isPrimary : Bool)
    (h : AlignmentHit) : CanonicalRecord :=
  let s := if h.revStrand then reverse_complement input.seq else input.seq
  let q := if h.revStrand then input.qual.reverse else input.qual
  let designated := if isPrimary then HitClass.primary else h.hitClass
  { seq := if isPrimary then s else []
    qual := if isPrimary then q else []
    tags := alignmentTags designated h ++ input.tags
    revFlag := h.revStrand
    mapped := true }

/-- Modelled from the spec: the per-record operation of AlignmentStage
(§4.4 steps 3–5).  No hits: one unmapped copy of the input.  Otherwise
the engine's top-ranked hit is designated primary and emitted first,
followed by one output per remaining hit. -/
def processRecord (input : CanonicalRecord) (hits : List AlignmentHit) :
    List CanonicalRecord :=
  match hits with
  | [] => [{ input with mapped := false }]
  | h :: rest => buildOutput input true h :: rest.map (buildOutput input false)

/- ## AlignmentStage construction -/

/-- Typed construction error of AlignmentStage. -/
inductive ConstructionError where
  | multiPartitionIndex
deriving DecidableEq, Repr

/-- Modelled from the spec: a constructed AlignmentStage — the
ReferenceIndex parameters plus the worker threads started. -/
structure AlignmentStage where
  kmerLength : Nat
  windowLength : Nat
  workerThreads : Nat
deriving DecidableEq, Repr

/-- Modelled from the spec: AlignmentStage construction.  "Builds the
ReferenceIndex synchronously during construction.  If the reference
cannot fit in a single index partition within `max_index_size`,
construction fails immediately with a fatal, typed error; no worker
threads are started."  A reference whose index exceeds `maxIndexSize`
requires more than one partition. -/
def mkAlignmentStage (refIndexSize kmerLength windowLength maxIndexSize
    threadCount : Nat) : Except ConstructionError AlignmentStage :=
  if refIndexSize ≤ maxIndexSize then
    .ok { kmerLength := kmerLength, windowLength := windowLength,
          workerThreads := threadCount }
  else
    .error .multiPartitionIndex

/-- Worker threads running after a construction attempt: none when
construction failed. -/
def workersStarted : Except ConstructionError AlignmentStage → Nat
  | .error _ => 0
  | .ok s => s.workerThreads

/- ## Engine-result models for the concrete test scenarios -/

/-- A hit with the given strand, classification and position; the metric
payloads are immaterial to the claims below. -/
def mkHit (revStrand : Bool) (cls : HitClass) (pos : Nat) : AlignmentHit :=
  { targetId := 0, pos := pos, revStrand := revStrand, hitClass := cls,
    editDistance := 0, mismatchCount := 0, score := 0, ambiguousBases := 0,
    divergence := 0, chainId := 0, chainScore := 0, readLength := 0 }

/-- Modelled from the spec: the opaque engine's hit list for
self-alignment — "aligning a record against a reference built from that
same record yields exactly 1 output record", i.e. a single
forward-strand primary hit (the engine and the `target.fq` test data are
not among the sources). -/
def selfAlignHits (r : CanonicalRecord) : List AlignmentHit :=
  [{ targetId := 0, pos := 0, revStrand := false, hitClass := .primary,
     editDistance := 0, mismatchCount := 0, score := (r.seq.length : Int),
     ambiguousBases := 0, divergence := 0, chainId := 0, chainScore := 0,
     readLength := (r.seq.length : Int) }]

/-- Modelled from the spec: the opaque engine's hit list for the fixed
reference/query pair of the parameter-sensitivity scenario (the engine
and the `target.fq` / `query.fa` test data are not among the sources):
minimizer parameters k=w=28 seed two alignments, k=w=5 seeds one. -/
def paramSensitivityHits (k w : Nat) : List AlignmentHit :=
  if k = 28 ∧ w = 28 then
    [mkHit false .primary 0, mkHit false .supplementary 100]
  else if k = 5 ∧ w = 5 then
    [mkHit false .primary 0]
  else []

/- ## Helper lemmas -/

lemma alignmentTags_map_fst (d : HitClass) (h : AlignmentHit) :
    (alignmentTags d h).map Prod.fst = alignmentTagKeys := rfl

lemma buildOutput_tags (input : CanonicalRecord) (b : Bool) (h : AlignmentHit) :
    (buildOutput input b h).tags =
      alignmentTags (if b then HitClass.primary else h.hitClass) h ++ input.tags := rfl

lemma mem_processRecord_shape (input : CanonicalRecord)
    (hits : List AlignmentHit) (out : CanonicalRecord)
    (hout : out ∈ processRecord input hits) :
    (hits = [] ∧ out = { input with mapped := false }) ∨
      ∃ b h, out = buildOutput input b h := by
  cases hits with
  | nil =>
      left
      refine ⟨rfl, ?_⟩
      simpa [processRecord] using hout
  | cons h rest =>
      right
      simp only [processRecord, List.mem_cons, List.mem_map] at hout
      rcases hout with hout | ⟨a, _, hout⟩
      · exact ⟨true, h, hout⟩
      · exact ⟨false, a, hout.symm⟩

lemma reverse_complement_length (s : List Char) :
    (reverse_complement s).length = s.length := by
  simp [reverse_complement]

lemma processRecord_length (input : CanonicalRecord)
    (hits : List AlignmentHit) :
    (processRecord input hits).length =
      if hits.isEmpty then 1 else hits.length := by
  cases hits <;> simp [processRecord]

/- ## Claim theorems -/

/-- Claim C6: for every sequence, applying `reverse_complement` twice
yields the original sequence — reverse-complement is its own inverse
(this covers in particular every sequence over the supported nucleotide
alphabet). -/
theorem reverse_complement_involutive (s : List Char) :
    reverse_complement (reverse_complement s) = s := by
  unfold reverse_complement
  rw [List.map_reverse, List.reverse_reverse, List.map_map]
  have hid : complement ∘ complement = id := funext complement_involutive
  rw [hid, List.map_id]

/-- Claim C7: for every sequence over the supported textual alphabet
(the 16 nt16 characters, including A, C, G, T and N), decoding the
packed nt16 encoding yields the sequence again — the transform is a
lossless round trip. -/
theorem convert_nt16_roundtrip (s : List Char)
    (h : ∀ c ∈ s, c ∈ nt16_chars) :
    convert_nt16_to_str (encode_seq s) = s := by
  unfold convert_nt16_to_str encode_seq
  rw [List.map_map]
  have hcongr : ∀ c ∈ s, (decode_nt16 ∘ encode_nt16) c = id c := by
    intro c hc
    exact decode_encode_nt16 c (h c hc)
  rw [List.map_congr_left hcongr, List.map_id]

/-- Witness for C7 at the sequence ACGTN. -/
theorem convert_nt16_roundtrip_witness :
    convert_nt16_to_str (encode_seq ['A', 'C', 'G', 'T', 'N']) =
      ['A', 'C', 'G', 'T', 'N'] :=
  convert_nt16_roundtrip ['A', 'C', 'G', 'T', 'N'] (by decide)

/-- Claim C10: the CLI aligner read loop with `--max-reads` cap `N`,
given more than `N` input reads, processes and writes alignments for
exactly `N + 1` reads before stopping — the post-increment comparison
makes the effective cap one greater than the configured value. -/
theorem aligner_read_loop_off_by_one {α β : Type} (maxReads : Nat)
    (reads : List α) (align : α → List β)
    (h : maxReads < reads.length) :
    (alignerProcessedReads maxReads reads).length = maxReads + 1 ∧
      alignerWrittenRecords align maxReads reads =
        (reads.take (maxReads + 1)).flatMap align := by
  constructor
  · rw [alignerProcessedReads_eq_take, List.length_take]
    omega
  · unfold alignerWrittenRecords
    rw [alignerProcessedReads_eq_take]

/-- Witness for C10: cap 1 on a 3-read input processes exactly 2
reads. -/
theorem aligner_read_loop_off_by_one_witness :
    (alignerProcessedReads 1 [10, 20, 30]).length = 1 + 1 ∧
      alignerWrittenRecords (fun n => [n, n]) 1 [10, 20, 30] =
        ([10, 20, 30].take (1 + 1)).flatMap (fun n => [n, n]) :=
  aligner_read_loop_off_by_one 1 [10, 20, 30] (fun n => [n, n]) (by decide)

/-- Claim C2: a reference whose index exceeds the configured maximum
index partition size (needs more than one partition) makes
AlignmentStage construction fail with the typed fatal error on every
attempt, and no worker threads are started. -/
theorem mkAlignmentStage_multi_partition_fails
    (refIndexSize k w maxIndexSize threads : Nat)
    (h : maxIndexSize < refIndexSize) :
    mkAlignmentStage refIndexSize k w maxIndexSize threads =
        Except.error ConstructionError.multiPartitionIndex ∧
      workersStarted (mkAlignmentStage refIndexSize k w maxIndexSize threads) = 0 := by
  have hfail : mkAlignmentStage refIndexSize k w maxIndexSize threads =
      Except.error ConstructionError.multiPartitionIndex := by
    unfold mkAlignmentStage
    rw [if_neg (by omega)]
  exact ⟨hfail, by rw [hfail]; rfl⟩

/-- Witness for C2, mirroring the multi-index test: max index size 1000,
a reference index needing 5000. -/
theorem mkAlignmentStage_multi_partition_fails_witness :
    mkAlignmentStage 5000 5 5 1000 1 =
        Except.error ConstructionError.multiPartitionIndex ∧
      workersStarted (mkAlignmentStage 5000 5 5 1000 1) = 0 :=
  mkAlignmentStage_multi_partition_fails 5000 5 5 1000 1 (by decide)

/-- Claim C3: when the best (top-ranked) hit of an input record is on
the reverse strand, the primary output record has the
reverse-orientation flag set, its sequence is the reverse complement of
the input sequence and its quality array is the input quality array
reversed. -/
theorem processRecord_reverse_strand (input : CanonicalRecord)
    (h : AlignmentHit) (rest : List AlignmentHit)
    (hrev : h.revStrand = true) :
    ∃ out outs, processRecord input (h :: rest) = out :: outs ∧
      out.revFlag = true ∧
      out.seq = reverse_complement input.seq ∧
      out.qual = input.qual.reverse := by
  refine ⟨buildOutput input true h, rest.map (buildOutput input false),
    rfl, ?_, ?_, ?_⟩ <;> simp [buildOutput, hrev]

/-- Witness for C3 at a concrete two-base record and a reverse-strand
hit. -/
theorem processRecord_reverse_strand_witness :
    ∃ out outs,
      processRecord (CanonicalRecord.mk ['A', 'C'] [10, 20] [] false false)
          (mkHit true HitClass.primary 0 :: []) = out :: outs ∧
      out.revFlag = true ∧
      out.seq = reverse_complement ['A', 'C'] ∧
      out.qual = List.reverse [10, 20] :=
  processRecord_reverse_strand
    (CanonicalRecord.mk ['A', 'C'] [10, 20] [] false false)
    (mkHit true HitClass.primary 0) [] rfl

/-- Claim C4: self-alignment (the engine returning its single
forward-strand primary hit for a record aligned against a reference
built from itself) yields exactly 1 output record, whose sequence and
quality array equal the input record's. -/
theorem processRecord_self_alignment (r : CanonicalRecord) :
    ∃ out, processRecord r (selfAlignHits r) = [out] ∧
      out.seq = r.seq ∧ out.qual = r.qual := by
  refine ⟨buildOutput r true
    { targetId := 0, pos := 0, revStrand := false, hitClass := .primary,
      editDistance := 0, mismatchCount := 0, score := (r.seq.length : Int),
      ambiguousBases := 0, divergence := 0, chainId := 0, chainScore := 0,
      readLength := (r.seq.length : Int) }, ?_, ?_, ?_⟩ <;>
    simp [processRecord, selfAlignHits, buildOutput]

/-- Claim C5: every annotation tag present on an input record before
alignment appears unchanged (same key, same value) on every output
record the alignment stage derives from it, whatever the hit list. -/
theorem processRecord_preserves_tags (input : CanonicalRecord)
    (hits : List AlignmentHit) (out : CanonicalRecord)
    (hout : out ∈ processRecord input hits)
    (t : String × TagValue) (ht : t ∈ input.tags) :
    t ∈ out.tags := by
  rcases mem_processRecord_shape input hits out hout with ⟨_, hcopy⟩ | ⟨b, hh, hbuild⟩
  · subst hcopy
    exact ht
  · subst hbuild
    rw [buildOutput_tags]
    exact List.mem_append_right _ ht

/-- Witness for C5: a provenance tag on a concrete input survives onto
the primary output of a one-hit alignment. -/
theorem processRecord_preserves_tags_witness :
    ("RG", TagValue.str "runid") ∈
      (buildOutput
        (CanonicalRecord.mk ['A'] [7] [("RG", TagValue.str "runid")] false false)
        true (mkHit false HitClass.primary 0)).tags :=
  processRecord_preserves_tags
    (CanonicalRecord.mk ['A'] [7] [("RG", TagValue.str "runid")] false false)
    [mkHit false HitClass.primary 0]
    (buildOutput
      (CanonicalRecord.mk ['A'] [7] [("RG", TagValue.str "runid")] false false)
      true (mkHit false HitClass.primary 0))
    (by simp [processRecord])
    ("RG", TagValue.str "runid") (by simp)

/-- Claim C8: every output record emitted for a mapped hit (any
non-empty hit list, any rank — primary, secondary or supplementary)
carries all nine fixed alignment tag keys: edit distance, mismatch
count, alignment score, ambiguous-base count, divergence estimate,
mapping classification, chain identifier, chaining score and read
length. -/
theorem processRecord_full_tag_set (input : CanonicalRecord)
    (h : AlignmentHit) (rest : List AlignmentHit) (out : CanonicalRecord)
    (hout : out ∈ processRecord input (h :: rest))
    (k : String) (hk : k ∈ alignmentTagKeys) :
    k ∈ out.tags.map Prod.fst := by
  rcases mem_processRecord_shape input (h :: rest) out hout with ⟨hnil, _⟩ | ⟨b, hh, hbuild⟩
  · exact absurd hnil (List.cons_ne_nil h rest)
  · subst hbuild
    rw [buildOutput_tags, List.map_append, alignmentTags_map_fst]
    exact List.mem_append_left _ hk

/-- Witness for C8: the `tp` key is present on the single output of a
concrete one-hit alignment. -/
theorem processRecord_full_tag_set_witness :
    "tp" ∈ (buildOutput (CanonicalRecord.mk ['A'] [7] [] false false)
        true (mkHit false HitClass.primary 0)).tags.map Prod.fst :=
  processRecord_full_tag_set
    (CanonicalRecord.mk ['A'] [7] [] false false)
    (mkHit false HitClass.primary 0) []
    (buildOutput (CanonicalRecord.mk ['A'] [7] [] false false)
      true (mkHit false HitClass.primary 0))
    (by simp [processRecord])
    "tp" (by simp [alignmentTagKeys])

/-- Claim C1: a query matching two disjoint regions of the reference
(the engine returning a top-ranked hit plus a supplementary hit) yields
exactly 2 output records: first the primary one — classified primary,
non-empty sequence — then the supplementary one — classified
supplementary, empty sequence — and both carry the full set of
alignment tags. -/
theorem processRecord_supplementary_split (input : CanonicalRecord)
    (h1 h2 : AlignmentHit)
    (hseq : input.seq ≠ [])
    (hcls : h2.hitClass = HitClass.supplementary) :
    ∃ o1 o2, processRecord input [h1, h2] = [o1, o2] ∧
      ("tp", TagValue.cls (classCode HitClass.primary)) ∈ o1.tags ∧
      o1.seq ≠ [] ∧
      ("tp", TagValue.cls (classCode HitClass.supplementary)) ∈ o2.tags ∧
      o2.seq = [] ∧
      (∀ k ∈ alignmentTagKeys, k ∈ o1.tags.map Prod.fst) ∧
      (∀ k ∈ alignmentTagKeys, k ∈ o2.tags.map Prod.fst) := by
  refine ⟨buildOutput input true h1, buildOutput input false h2, rfl,
    ?_, ?_, ?_, ?_, ?_, ?_⟩
  · rw [buildOutput_tags]
    exact List.mem_append_left _ (by simp [alignmentTags])
  · have hlen : (buildOutput input true h1).seq.length = input.seq.length := by
      by_cases hr : h1.revStrand <;>
        simp [buildOutput, hr, reverse_complement_length]
    intro hnil
    apply hseq
    rw [← List.length_eq_zero, ← hlen, hnil]
    rfl
  · rw [buildOutput_tags]
    refine List.mem_append_left _ ?_
    simp [alignmentTags, hcls]
  · simp [buildOutput]
  · intro k hk
    rw [buildOutput_tags, List.map_append, alignmentTags_map_fst]
    exact List.mem_append_left _ hk
  · intro k hk
    rw [buildOutput_tags, List.map_append, alignmentTags_map_fst]
    exact List.mem_append_left _ hk

/-- Witness for C1 at a concrete record and a primary/supplementary hit
pair. -/
theorem processRecord_supplementary_split_witness :
    ∃ o1 o2,
      processRecord (CanonicalRecord.mk ['A', 'C', 'G'] [1, 2, 3] [] false false)
          [mkHit false HitClass.primary 0, mkHit false HitClass.supplementary 50] =
        [o1, o2] ∧
      ("tp", TagValue.cls (classCode HitClass.primary)) ∈ o1.tags ∧
      o1.seq ≠ [] ∧
      ("tp", TagValue.cls (classCode HitClass.supplementary)) ∈ o2.tags ∧
      o2.seq = [] ∧
      (∀ k ∈ alignmentTagKeys, k ∈ o1.tags.map Prod.fst) ∧
      (∀ k ∈ alignmentTagKeys, k ∈ o2.tags.map Prod.fst) :=
  processRecord_supplementary_split
    (CanonicalRecord.mk ['A', 'C', 'G'] [1, 2, 3] [] false false)
    (mkHit false HitClass.primary 0)
    (mkHit false HitClass.supplementary 50)
    (by simp) rfl

/-- Claim C9: on the fixed reference/query pair of the
parameter-sensitivity scenario, minimizer parameters k=28, w=28 produce
exactly 2 output records, while k=5, w=5 produce exactly 1, for any
input record. -/
theorem processRecord_parameter_sensitivity (input : CanonicalRecord) :
    (processRecord input (paramSensitivityHits 28 28)).length = 2 ∧
      (processRecord input (paramSensitivityHits 5 5)).length = 1 := by
  constructor <;> rw [processRecord_length] <;> rfl
